import Mathlib

/-!
Verification model of `src/ntex/src/framed/dispatcher.rs` (ntex framed
transport dispatcher).

The dispatcher is a poll-driven future.  Its mutable state (the `Cell`s of
`DispatcherInner` / `DispatcherShared`, the inline response future slot and
the set of spawned handler tasks) is modelled as an explicit `Config`
record.  External collaborators (the connection `State`, the `Timer`
facility and the handler `Service`) are modelled as per-step oracle inputs
(`IterEnv`): each field is the value the corresponding collaborator call
returns at that moment.  Observable calls to the collaborators
(timer register/unregister, `shutdown_io`, `dsp_wake_task`, `poll_shutdown`,
items passed to `Service::call`) are recorded in logs inside `Config`.

Machine integers: `ka_timeout` is a `u16` number of seconds and `Instant`
is modelled as a `Nat` of seconds; no arithmetic in the source can overflow
(`u16` is widened to `u64` before any addition), so plain `Nat` is used.
The `inflight` counter is a Rust `usize`; it is modelled as `Int` so that
the statement "it never goes below 0" is meaningful rather than truncated.
-/

namespace NtexFramed

/-- Modelled from the spec (§3): the tagged variant fed to the handler.
The variants are exactly the ones `dispatcher.rs` constructs:
`Item`, `DecoderError`, `EncoderError`, `IoError`, `KeepAliveTimeout`. -/
inductive DispatchItem (F DE EE IE : Type) where
  | Item : F → DispatchItem F DE EE IE
  | DecoderError : DE → DispatchItem F DE EE IE
  | EncoderError : EE → DispatchItem F DE EE IE
  | IoError : IE → DispatchItem F DE EE IE
  | KeepAliveTimeout : DispatchItem F DE EE IE
  deriving DecidableEq, Repr

/-- Model of `enum DispatcherError<S, U> \x7b KeepAlive, Encoder(U), Service(S) \x7d`. -/
inductive DispatcherError (S EE : Type) where
  | KeepAlive : DispatcherError S EE
  | Encoder : EE → DispatcherError S EE
  | Service : S → DispatcherError S EE
  deriving DecidableEq, Repr

/-- Model of `impl From<Either<S, U>> for DispatcherError<S, U>`:
`Left` becomes `Service`, `Right` becomes `Encoder`. -/
def DispatcherError.ofEither {S EE : Type} : S ⊕ EE → DispatcherError S EE
  | Sum.inl s => DispatcherError.Service s
  | Sum.inr e => DispatcherError.Encoder e

/-- Model of `enum DispatcherState \x7b Processing, Stop, Shutdown \x7d`. -/
inductive DispatcherState where
  | Processing : DispatcherState
  | Stop : DispatcherState
  | Shutdown : DispatcherState
  deriving DecidableEq, Repr

/-- Model of `enum PollService<U>`: `Item(DispatchItem<U>)`, `ServiceError`, `Pending`, `Ready`. -/
inductive PollService (F DE EE IE : Type) where
  | Item : DispatchItem F DE EE IE → PollService F DE EE IE
  | ServiceError : PollService F DE EE IE
  | Pending : PollService F DE EE IE
  | Ready : PollService F DE EE IE
  deriving DecidableEq, Repr

/-- Result of `Service::poll_ready`: `Poll<Result<(), S::Error>>`. -/
inductive PollReady (S : Type) where
  | Ok : PollReady S
  | Pending : PollReady S
  | Err : S → PollReady S
  deriving DecidableEq, Repr

/-- Outcome of one call to `Future::poll` on the dispatcher:
`Poll::Pending` or `Poll::Ready(Result<(), S::Error>)`.  `Ready none`
is `Ok(())`, `Ready (some e)` is `Err(e)`. -/
inductive PollOutcome (S : Type) where
  | Pending : PollOutcome S
  | Ready : Option S → PollOutcome S
  deriving DecidableEq, Repr

/-- Observable calls made to the `Timer` facility
(`timer.register(new, old, &state)` / `timer.unregister(d, &state)`),
deadlines in seconds since the epoch of the model. -/
inductive TimerEvent where
  | register : Nat → Nat → TimerEvent
  | unregister : Nat → TimerEvent
  deriving DecidableEq, Repr

/-- Model of `DispatcherShared`: the `Rc`-shared cell holding the pending
`DispatcherError` and the `inflight` counter (the codec itself carries no
state relevant to the model). -/
structure Shared (S EE : Type) where
  error : Option (DispatcherError S EE)
  inflight : Int
  deriving DecidableEq, Repr

/-- Model of `DispatcherInner`: the dispatcher-local cells — the state machine
state, keep-alive configuration and the dispatcher's own error slot
(`error : Cell<Option<S::Error>>`, which only ever holds service errors). -/
structure Inner (S EE : Type) where
  st : DispatcherState
  ka_timeout : Nat
  ka_updated : Nat
  error : Option S
  shared : Shared S EE
  deriving DecidableEq, Repr

/-- Whole-dispatcher configuration: `Inner` plus the inline response
future slot (`fut : Option<S::Future>`, modelled by presence), the number
of spawned handler tasks still running, and logs of the observable calls
made to the collaborators. -/
structure Config (F S DE EE IE : Type) where
  inner : Inner S EE
  fut : Bool
  detached : Nat
  timerLog : List TimerEvent
  items : List (DispatchItem F DE EE IE)
  ioShutdown : Bool
  wakes : Nat
  shutdownCalls : List Bool
  result : Option (Option S)
  deriving DecidableEq, Repr

/-- Oracle inputs for one pass of the `loop` in `Future::poll`: the values
returned by each collaborator call the pass may make.  `callDone = some w`
means an inline `Service::call` polled in this pass completes at once and
`state.write_result` on its output returns `Ok` (`w = none`) or
`Err(Either)` (`w = some (inl s)` / `some (inr e)`); `callDone = none`
means the inline call stays pending. -/
structure IterEnv (F S DE EE IE : Type) where
  pollReady : PollReady S
  isKeepalive : Bool
  isDspStopped : Bool
  takeIoError : Option IE
  isReadReady : Bool
  decodeItem : Except DE (Option F)
  now : Nat
  callDone : Option (Option (S ⊕ EE))
  pollShutdownReady : Bool

variable {F S DE EE IE : Type}

/-- Effect of `state.write_result(item, &codec)` on the shared cell: on
`Err(err)` the cell is set (unconditionally) to `err.into()`; on `Ok`
nothing happens.  `w` is the oracle-supplied result of the call. -/
def writeResultEffect (sh : Shared S EE) (w : Option (S ⊕ EE)) : Shared S EE :=
  match w with
  | none => sh
  | some err => { sh with error := some (DispatcherError.ofEither err) }

/-- Model of `DispatcherShared::handle_result`: decrement `inflight`, run
`write_result` (recording a failure into the shared error cell), and call
`dsp_wake_task` when `wake` is set. -/
def handle_result (c : Config F S DE EE IE) (w : Option (S ⊕ EE)) (wake : Bool) :
    Config F S DE EE IE :=
  let sh := writeResultEffect { c.inner.shared with inflight := c.inner.shared.inflight - 1 } w
  let c := { c with inner.shared := sh }
  if wake then { c with wakes := c.wakes + 1 } else c

/-- Model of `DispatcherInner::ka()`: `Duration::from_secs(ka_timeout)`, in seconds. -/
def Inner.ka (i : Inner S EE) : Nat := i.ka_timeout

/-- Model of `DispatcherInner::ka_enabled()`: `ka_timeout > 0`. -/
def Inner.ka_enabled (i : Inner S EE) : Bool := i.ka_timeout > 0

/-- Model of `DispatcherInner::check_keepalive`: if the connection reports the
keep-alive flag, take the shared error and put it back if present,
otherwise record `DispatcherError::KeepAlive`. -/
def check_keepalive (i : Inner S EE) (isKeepalive : Bool) : Inner S EE :=
  if isKeepalive then
    match i.shared.error with
    | some err => { i with shared.error := some err }
    | none => { i with shared.error := some DispatcherError.KeepAlive }
  else i

/-- Model of `DispatcherInner::update_keepalive`: when enabled and the clock moved,
register `now + ka` replacing `ka_updated + ka` and record the new update
time. -/
def update_keepalive (i : Inner S EE) (log : List TimerEvent) (now : Nat) :
    Inner S EE × List TimerEvent :=
  if i.ka_enabled then
    if now ≠ i.ka_updated then
      ({ i with ka_updated := now },
        log ++ [TimerEvent.register (now + i.ka) (i.ka_updated + i.ka)])
    else (i, log)
  else (i, log)

/-- Model of `DispatcherInner::unregister_keepalive`: when enabled, unregister
`ka_updated + ka`; a no-op when keep-alive is disabled.  The function
only talks to the timer, so it returns the extended timer log. -/
def unregister_keepalive (i : Inner S EE) (log : List TimerEvent) : List TimerEvent :=
  if i.ka_enabled then log ++ [TimerEvent.unregister (i.ka_updated + i.ka)]
  else log

/-- Model of `DispatcherInner::poll_service`.  Mirrors the source arm for arm:
on `poll_ready = Ok` it restarts the read task (no model state), runs
`check_keepalive`, then takes a pending shared error (translating its
kind), else honours an external stop, else yields `Ready`; on `Pending`
it registers and suspends; on `Err` it stops, stashes the error and
unregisters keep-alive. -/
def poll_service (c : Config F S DE EE IE) (env : IterEnv F S DE EE IE) :
    PollService F DE EE IE × Config F S DE EE IE :=
  match env.pollReady with
  | PollReady.Ok =>
    -- service is ready: `self.state.dsp_restart_read_task()` (external)
    let i := check_keepalive c.inner env.isKeepalive
    match i.shared.error with
    | some err =>
      -- `self.shared.error.take()` observed `Some`
      let i := { i with shared.error := none }
      let log := unregister_keepalive i c.timerLog
      let i := { i with st := DispatcherState.Stop }
      match err with
      | DispatcherError.KeepAlive =>
        (PollService.Item DispatchItem.KeepAliveTimeout, { c with inner := i, timerLog := log })
      | DispatcherError.Encoder e =>
        (PollService.Item (DispatchItem.EncoderError e), { c with inner := i, timerLog := log })
      | DispatcherError.Service s =>
        (PollService.ServiceError,
          { c with inner := { i with error := some s }, timerLog := log })
    | none =>
      if env.isDspStopped then
        let log := unregister_keepalive i c.timerLog
        let i := { i with st := DispatcherState.Stop }
        match env.takeIoError with
        | some ioe =>
          (PollService.Item (DispatchItem.IoError ioe), { c with inner := i, timerLog := log })
        | none => (PollService.ServiceError, { c with inner := i, timerLog := log })
      else (PollService.Ready, { c with inner := i })
  | PollReady.Pending =>
    -- `self.state.dsp_service_not_ready(cx.waker())`
    (PollService.Pending, c)
  | PollReady.Err s =>
    let i := { c.inner with st := DispatcherState.Stop, error := some s }
    let log := unregister_keepalive i c.timerLog
    (PollService.ServiceError, { c with inner := i, timerLog := log })

/-- Dispatch of a produced item to the service (`// call service` block):
if the inline slot is free, start an inline call and poll it once — a
synchronous completion writes its result at once (recording an encode
failure in the shared cell), a pending one occupies the slot and
increments `inflight`; if the slot is occupied, increment `inflight` and
spawn the call as a detached task. -/
def dispatch_item (c : Config F S DE EE IE) (env : IterEnv F S DE EE IE)
    (item : DispatchItem F DE EE IE) : Config F S DE EE IE :=
  let c := { c with items := c.items ++ [item] }
  if c.fut then
    -- spawn service call
    { c with detached := c.detached + 1,
             inner.shared.inflight := c.inner.shared.inflight + 1 }
  else
    match env.callDone with
    | some w => { c with inner.shared := writeResultEffect c.inner.shared w }
    | none =>
      { c with fut := true,
               inner.shared.inflight := c.inner.shared.inflight + 1 }

/-- One pass of the `loop` in `Future::poll`: `Sum.inl c` means the loop
continues with configuration `c`; `Sum.inr (c, out)` means the poll
returns `out` leaving configuration `c`. -/
def loop_iter (c : Config F S DE EE IE) (env : IterEnv F S DE EE IE) :
    Config F S DE EE IE ⊕ Config F S DE EE IE × PollOutcome S :=
  match c.inner.st with
  | DispatcherState.Processing =>
    let (ps, c) := poll_service c env
    match ps with
    | PollService.Ready =>
      if env.isReadReady then
        match env.decodeItem with
        | Except.ok (some el) =>
          let (i, log) := update_keepalive c.inner c.timerLog env.now
          Sum.inl (dispatch_item { c with inner := i, timerLog := log } env
            (DispatchItem.Item el))
        | Except.ok none =>
          -- `state.dsp_read_more_data(cx.waker())`
          Sum.inr (c, PollOutcome.Pending)
        | Except.error e =>
          let i := { c.inner with st := DispatcherState.Stop }
          let log := unregister_keepalive i c.timerLog
          Sum.inl (dispatch_item { c with inner := i, timerLog := log } env
            (DispatchItem.DecoderError e))
      else
        -- no new events: `state.dsp_register_task(cx.waker())`
        Sum.inr (c, PollOutcome.Pending)
    | PollService.Item item => Sum.inl (dispatch_item c env item)
    | PollService.ServiceError => Sum.inl c
    | PollService.Pending => Sum.inr (c, PollOutcome.Pending)
  | DispatcherState.Stop =>
    -- `let _ = this.service.poll_ready(cx);` — result discarded
    let _ := env.pollReady
    if c.inner.shared.inflight = 0 then
      Sum.inl { c with inner.st := DispatcherState.Shutdown, ioShutdown := true }
    else
      -- `state.dsp_register_task(cx.waker())`
      Sum.inr (c, PollOutcome.Pending)
  | DispatcherState.Shutdown =>
    let err := c.inner.error
    let c := { c with inner.error := none,
                      shutdownCalls := c.shutdownCalls ++ [err.isSome] }
    if env.pollShutdownReady then
      Sum.inr (c, PollOutcome.Ready err)
    else
      Sum.inr ({ c with inner.error := err }, PollOutcome.Pending)

/-- The `loop` of `Future::poll`, driven by a list of per-pass oracle
inputs (the fuel).  Returns the configuration when the list is exhausted
with the loop still running (`none` outcome) or when a pass returns. -/
def poll_loop (c : Config F S DE EE IE) :
    List (IterEnv F S DE EE IE) → Config F S DE EE IE × Option (PollOutcome S)
  | [] => (c, none)
  | env :: rest =>
    match loop_iter c env with
    | Sum.inl c' => poll_loop c' rest
    | Sum.inr (c', out) => (c', some out)

/-- The prologue of `Future::poll`: if the inline response future is
present and completes now (`futDone = some w`), its result is handed to
`handle_result` with `wake = false` and the slot is cleared, before the
state-machine loop runs. -/
def drain_fut (c : Config F S DE EE IE) (futDone : Option (Option (S ⊕ EE))) :
    Config F S DE EE IE :=
  if c.fut then
    match futDone with
    | some w => { handle_result c w false with fut := false }
    | none => c
  else c

/-- One full call of `Future::poll`: drain the inline future, then run the
state-machine loop. -/
def poll (c : Config F S DE EE IE) (futDone : Option (Option (S ⊕ EE)))
    (iters : List (IterEnv F S DE EE IE)) :
    Config F S DE EE IE × Option (PollOutcome S) :=
  poll_loop (drain_fut c futDone) iters

/-- Events of an execution: a call of `Future::poll` (with its oracle
inputs), or the completion of one spawned (detached) handler task, whose
`map` closure calls `handle_result` with `wake = true`. -/
inductive Event (F S DE EE IE : Type) where
  | poll : Option (Option (S ⊕ EE)) → List (IterEnv F S DE EE IE) → Event F S DE EE IE
  | detachedDone : Option (S ⊕ EE) → Event F S DE EE IE

/-- Global small-step: apply one event.  A completed dispatcher future is
not polled again; a `detachedDone` event only applies while a spawned task
exists (spawned tasks are the only source of such completions). -/
def step (c : Config F S DE EE IE) : Event F S DE EE IE → Config F S DE EE IE
  | Event.poll futDone iters =>
    if c.result.isSome then c
    else
      match poll c futDone iters with
      | (c', none) => c'
      | (c', some PollOutcome.Pending) => c'
      | (c', some (PollOutcome.Ready r)) => { c' with result := some r }
  | Event.detachedDone w =>
    if c.detached > 0 then
      { handle_result c w true with detached := c.detached - 1 }
    else c

/-- Run a whole execution from a configuration. -/
def run (c : Config F S DE EE IE) : List (Event F S DE EE IE) → Config F S DE EE IE
  | [] => c
  | e :: es => run (step c e) es

/-- Model of `Dispatcher::from_state`: record `updated = timer.now()`, set the
default `ka_timeout = 30`, register the deadline `updated + 30`
(`timer.register(expire, expire, &state)`), and build the initial cells:
`Processing`, no errors, `inflight = 0`, empty inline slot. -/
def from_state (now : Nat) : Config F S DE EE IE :=
  { inner :=
      { st := DispatcherState.Processing,
        ka_timeout := 30,
        ka_updated := now,
        error := none,
        shared := { error := none, inflight := 0 } },
    fut := false,
    detached := 0,
    timerLog := [TimerEvent.register (now + 30) (now + 30)],
    items := [],
    ioShutdown := false,
    wakes := 0,
    shutdownCalls := [],
    result := none }

/-- Model of `Dispatcher::keepalive_timeout(timeout)`: compute the previous
deadline `ka_updated + ka()` from the old timeout; for `timeout = 0`
unregister it, otherwise register `ka_updated + timeout` replacing it;
then store the new timeout.  (`timeout` is a `u16` of seconds.) -/
def keepalive_timeout (c : Config F S DE EE IE) (timeout : Nat) : Config F S DE EE IE :=
  let prev := c.inner.ka_updated + c.inner.ka
  let log :=
    if timeout = 0 then c.timerLog ++ [TimerEvent.unregister prev]
    else c.timerLog ++ [TimerEvent.register (c.inner.ka_updated + timeout) prev]
  { c with inner.ka_timeout := timeout, timerLog := log }

/-- Ordinal of a dispatcher state along Processing → Stop → Shutdown. -/
def DispatcherState.ord : DispatcherState → Nat
  | DispatcherState.Processing => 0
  | DispatcherState.Stop => 1
  | DispatcherState.Shutdown => 2

/-- Configuration left behind by one loop pass, whether the loop
continued or the poll returned. -/
def afterIter : Config F S DE EE IE ⊕ Config F S DE EE IE × PollOutcome S →
    Config F S DE EE IE
  | Sum.inl c => c
  | Sum.inr (c, _) => c

lemma ofEither_ne_keepAlive (w : S ⊕ EE) :
    DispatcherError.ofEither w ≠ DispatcherError.KeepAlive := by
  cases w <;> simp [DispatcherError.ofEither]

lemma check_keepalive_fields (i : Inner S EE) (b : Bool) :
    (check_keepalive i b).ka_timeout = i.ka_timeout ∧
    (check_keepalive i b).ka_updated = i.ka_updated ∧
    (check_keepalive i b).st = i.st ∧
    (check_keepalive i b).error = i.error ∧
    (check_keepalive i b).shared.inflight = i.shared.inflight := by
  cases b <;> cases h : i.shared.error <;> simp [check_keepalive, h]

lemma check_keepalive_false (i : Inner S EE) : check_keepalive i false = i := by
  simp [check_keepalive]

/-- Frame lemma: `poll_service` only touches the state-machine state, the error cells
and the timer log: every other field of the configuration is unchanged. -/
lemma poll_service_frame (c : Config F S DE EE IE) (env : IterEnv F S DE EE IE) :
    (poll_service c env).2.fut = c.fut ∧
    (poll_service c env).2.detached = c.detached ∧
    (poll_service c env).2.inner.shared.inflight = c.inner.shared.inflight ∧
    (poll_service c env).2.items = c.items ∧
    (poll_service c env).2.inner.ka_timeout = c.inner.ka_timeout ∧
    (poll_service c env).2.inner.ka_updated = c.inner.ka_updated ∧
    (poll_service c env).2.wakes = c.wakes ∧
    (poll_service c env).2.ioShutdown = c.ioShutdown ∧
    (poll_service c env).2.shutdownCalls = c.shutdownCalls ∧
    (poll_service c env).2.result = c.result := by
  obtain ⟨h1, h2, h3, h4, h5⟩ := check_keepalive_fields c.inner env.isKeepalive
  dsimp only [poll_service]
  cases hpr : env.pollReady with
  | Ok =>
    cases herr : (check_keepalive c.inner env.isKeepalive).shared.error with
    | some err => cases err <;> simp [herr, h1, h2, h3, h4, h5]
    | none =>
      cases hstop : env.isDspStopped with
      | true => cases hio : env.takeIoError <;> simp [herr, hstop, hio, h1, h2, h3, h4, h5]
      | false => simp [herr, hstop, h1, h2, h3, h4, h5]
  | Pending => simp
  | Err s => simp

lemma unregister_keepalive_congr (i j : Inner S EE) (log : List TimerEvent)
    (h1 : i.ka_timeout = j.ka_timeout) (h2 : i.ka_updated = j.ka_updated) :
    unregister_keepalive i log = unregister_keepalive j log := by
  simp [unregister_keepalive, Inner.ka_enabled, Inner.ka, h1, h2]

/-- Case lemma: `poll_service`, ready service, pending `KeepAlive` error after the
keep-alive check: the error wins regardless of any stop request. -/
lemma poll_service_keepalive_case (c : Config F S DE EE IE) (env : IterEnv F S DE EE IE)
    (hok : env.pollReady = PollReady.Ok)
    (herr : (check_keepalive c.inner env.isKeepalive).shared.error
      = some DispatcherError.KeepAlive) :
    poll_service c env =
      (PollService.Item DispatchItem.KeepAliveTimeout,
        { c with
            inner := { check_keepalive c.inner env.isKeepalive with
                        shared.error := none, st := DispatcherState.Stop },
            timerLog := unregister_keepalive c.inner c.timerLog }) := by
  obtain ⟨h1, h2, h3, h4, h5⟩ := check_keepalive_fields c.inner env.isKeepalive
  dsimp only [poll_service]
  rw [hok]
  simp only [herr]
  simp [unregister_keepalive, Inner.ka_enabled, Inner.ka, h1, h2]

/-- Case lemma: `poll_service`, ready service, pending `Encoder` error after the
keep-alive check. -/
lemma poll_service_encoder_case (c : Config F S DE EE IE) (env : IterEnv F S DE EE IE)
    (e : EE) (hok : env.pollReady = PollReady.Ok)
    (herr : (check_keepalive c.inner env.isKeepalive).shared.error
      = some (DispatcherError.Encoder e)) :
    poll_service c env =
      (PollService.Item (DispatchItem.EncoderError e),
        { c with
            inner := { check_keepalive c.inner env.isKeepalive with
                        shared.error := none, st := DispatcherState.Stop },
            timerLog := unregister_keepalive c.inner c.timerLog }) := by
  obtain ⟨h1, h2, h3, h4, h5⟩ := check_keepalive_fields c.inner env.isKeepalive
  dsimp only [poll_service]
  rw [hok]
  simp only [herr]
  simp [unregister_keepalive, Inner.ka_enabled, Inner.ka, h1, h2]

/-- Case lemma: `poll_service`, ready service, pending `Service` error after the
keep-alive check: the error is stashed in the dispatcher error slot. -/
lemma poll_service_service_case (c : Config F S DE EE IE) (env : IterEnv F S DE EE IE)
    (s : S) (hok : env.pollReady = PollReady.Ok)
    (herr : (check_keepalive c.inner env.isKeepalive).shared.error
      = some (DispatcherError.Service s)) :
    poll_service c env =
      (PollService.ServiceError,
        { c with
            inner := { check_keepalive c.inner env.isKeepalive with
                        shared.error := none, st := DispatcherState.Stop,
                        error := some s },
            timerLog := unregister_keepalive c.inner c.timerLog }) := by
  obtain ⟨h1, h2, h3, h4, h5⟩ := check_keepalive_fields c.inner env.isKeepalive
  dsimp only [poll_service]
  rw [hok]
  simp only [herr]
  simp [unregister_keepalive, Inner.ka_enabled, Inner.ka, h1, h2]

/-- Case lemma: `poll_service`, ready service, no pending error, external stop with a
recorded io error. -/
lemma poll_service_stop_io_case (c : Config F S DE EE IE) (env : IterEnv F S DE EE IE)
    (ioe : IE) (hok : env.pollReady = PollReady.Ok)
    (herr : (check_keepalive c.inner env.isKeepalive).shared.error = none)
    (hstop : env.isDspStopped = true) (hio : env.takeIoError = some ioe) :
    poll_service c env =
      (PollService.Item (DispatchItem.IoError ioe),
        { c with
            inner := { check_keepalive c.inner env.isKeepalive with
                        st := DispatcherState.Stop },
            timerLog := unregister_keepalive c.inner c.timerLog }) := by
  obtain ⟨h1, h2, h3, h4, h5⟩ := check_keepalive_fields c.inner env.isKeepalive
  dsimp only [poll_service]
  rw [hok]
  simp only [herr, hstop, hio, if_true]
  rw [unregister_keepalive_congr _ c.inner _ h1 h2]

/-- Case lemma: `poll_service`, ready service, no pending error, external stop with no
recorded io error. -/
lemma poll_service_stop_none_case (c : Config F S DE EE IE) (env : IterEnv F S DE EE IE)
    (hok : env.pollReady = PollReady.Ok)
    (herr : (check_keepalive c.inner env.isKeepalive).shared.error = none)
    (hstop : env.isDspStopped = true) (hio : env.takeIoError = none) :
    poll_service c env =
      (PollService.ServiceError,
        { c with
            inner := { check_keepalive c.inner env.isKeepalive with
                        st := DispatcherState.Stop },
            timerLog := unregister_keepalive c.inner c.timerLog }) := by
  obtain ⟨h1, h2, h3, h4, h5⟩ := check_keepalive_fields c.inner env.isKeepalive
  dsimp only [poll_service]
  rw [hok]
  simp only [herr, hstop, hio, if_true]
  rw [unregister_keepalive_congr _ c.inner _ h1 h2]

/-- Case lemma: `poll_service`, ready service, no pending error, no stop request:
yields `Ready` and only the keep-alive check touched the configuration. -/
lemma poll_service_ready_case (c : Config F S DE EE IE) (env : IterEnv F S DE EE IE)
    (hok : env.pollReady = PollReady.Ok)
    (herr : (check_keepalive c.inner env.isKeepalive).shared.error = none)
    (hstop : env.isDspStopped = false) :
    poll_service c env =
      (PollService.Ready, { c with inner := check_keepalive c.inner env.isKeepalive }) := by
  dsimp only [poll_service]
  rw [hok]
  simp [herr, hstop]

/-- Case lemma: `poll_service` when the service is not ready: pure suspension. -/
lemma poll_service_pending_case (c : Config F S DE EE IE) (env : IterEnv F S DE EE IE)
    (hp : env.pollReady = PollReady.Pending) :
    poll_service c env = (PollService.Pending, c) := by
  dsimp only [poll_service]
  rw [hp]

/-- Case lemma: `poll_service` when `poll_ready` itself fails: stop, stash the error,
unregister keep-alive. -/
lemma poll_service_ready_err_case (c : Config F S DE EE IE) (env : IterEnv F S DE EE IE)
    (s : S) (he : env.pollReady = PollReady.Err s) :
    poll_service c env =
      (PollService.ServiceError,
        { c with
            inner := { c.inner with st := DispatcherState.Stop, error := some s },
            timerLog := unregister_keepalive c.inner c.timerLog }) := by
  dsimp only [poll_service]
  rw [he]
  simp [unregister_keepalive, Inner.ka_enabled, Inner.ka]

/-- Preservation of a configuration predicate along the poll loop, given
per-pass preservation under an environment condition `Q`. -/
lemma poll_loop_fst_preserve {P : Config F S DE EE IE → Prop}
    {Q : IterEnv F S DE EE IE → Prop}
    (h : ∀ c env, Q env → P c → P (afterIter (loop_iter c env))) :
    ∀ (iters : List (IterEnv F S DE EE IE)), (∀ env ∈ iters, Q env) →
      ∀ c, P c → P (poll_loop c iters).1 := by
  intro iters
  induction iters with
  | nil => intro _ c hc; exact hc
  | cons env rest ih =>
    intro hq c hc
    have hstep := h c env (hq env (List.mem_cons_self _ _)) hc
    cases hiter : loop_iter c env with
    | inl c2 =>
      rw [hiter] at hstep
      have := ih (fun e he => hq e (List.mem_cons_of_mem _ he)) c2 hstep
      simpa [poll_loop, hiter] using this
    | inr p =>
      obtain ⟨c2, out⟩ := p
      rw [hiter] at hstep
      simpa [poll_loop, hiter, afterIter] using hstep

/-- Preservation of a configuration predicate by one `poll` event, given
preservation by the drain, by each loop pass, and by setting the final
result field. -/
lemma step_poll_preserve {P : Config F S DE EE IE → Prop}
    {Q : IterEnv F S DE EE IE → Prop}
    (hres : ∀ c r, P c → P { c with result := some r })
    (hdrain : ∀ c w, P c → P (drain_fut c w))
    (hiter : ∀ c env, Q env → P c → P (afterIter (loop_iter c env)))
    (c : Config F S DE EE IE) (futDone : Option (Option (S ⊕ EE)))
    (iters : List (IterEnv F S DE EE IE)) (hq : ∀ env ∈ iters, Q env) (hc : P c) :
    P (step c (Event.poll futDone iters)) := by
  by_cases hr : c.result.isSome
  · simpa [step, hr] using hc
  · have h1 : P (poll c futDone iters).1 :=
      poll_loop_fst_preserve hiter iters hq _ (hdrain c futDone hc)
    rcases hp : poll c futDone iters with ⟨c2, o⟩
    rw [hp] at h1
    cases o with
    | none => simpa [step, hr, hp] using h1
    | some out =>
      cases out with
      | Pending => simpa [step, hr, hp] using h1
      | Ready r => simpa [step, hr, hp] using hres _ _ h1

/-- Preservation of a configuration predicate along a whole execution. -/
lemma run_preserve {P : Config F S DE EE IE → Prop} {Q : Event F S DE EE IE → Prop}
    (h : ∀ c e, Q e → P c → P (step c e)) :
    ∀ (events : List (Event F S DE EE IE)), (∀ e ∈ events, Q e) →
      ∀ c, P c → P (run c events) := by
  intro events
  induction events with
  | nil => intro _ c hc; exact hc
  | cons e rest ih =>
    intro hq c hc
    exact ih (fun x hx => hq x (List.mem_cons_of_mem _ hx)) _
      (h c e (hq e (List.mem_cons_self _ _)) hc)

/-- Concrete payload instantiation (all payload types `Nat`) used by the
executable witnesses and counterexamples. -/
abbrev ConfigN := Config Nat Nat Nat Nat Nat

/-- Oracle input type at the concrete instantiation. -/
abbrev IterEnvN := IterEnv Nat Nat Nat Nat Nat

/-- Event type at the concrete instantiation. -/
abbrev EventN := Event Nat Nat Nat Nat Nat

/-- Baseline oracle input: service ready, no keep-alive flag, no stop
request, read-ready but not enough buffered bytes to decode a frame. -/
def envN : IterEnvN :=
  { pollReady := PollReady.Ok, isKeepalive := false, isDspStopped := false,
    takeIoError := none, isReadReady := true, decodeItem := Except.ok none,
    now := 0, callDone := none, pollShutdownReady := true }

lemma update_keepalive_core (i : Inner S EE) (log : List TimerEvent) (now : Nat) :
    (update_keepalive i log now).1.shared = i.shared ∧
    (update_keepalive i log now).1.st = i.st ∧
    (update_keepalive i log now).1.error = i.error ∧
    (update_keepalive i log now).1.ka_timeout = i.ka_timeout := by
  unfold update_keepalive
  by_cases h1 : i.ka_enabled <;> by_cases h2 : now = i.ka_updated <;> simp [h1, h2]

lemma dispatch_item_fields (c : Config F S DE EE IE) (env : IterEnv F S DE EE IE)
    (item : DispatchItem F DE EE IE) :
    (dispatch_item c env item).inner.st = c.inner.st ∧
    (dispatch_item c env item).inner.ka_timeout = c.inner.ka_timeout ∧
    (dispatch_item c env item).inner.ka_updated = c.inner.ka_updated ∧
    (dispatch_item c env item).inner.error = c.inner.error ∧
    (dispatch_item c env item).timerLog = c.timerLog ∧
    (dispatch_item c env item).items = c.items ++ [item] ∧
    (dispatch_item c env item).result = c.result ∧
    (dispatch_item c env item).wakes = c.wakes ∧
    (dispatch_item c env item).ioShutdown = c.ioShutdown := by
  unfold dispatch_item
  by_cases hf : c.fut
  · simp [hf]
  · cases hcd : env.callDone with
    | some w => cases w <;> simp [hf, writeResultEffect]
    | none => simp [hf]

lemma dispatch_item_error (c : Config F S DE EE IE) (env : IterEnv F S DE EE IE)
    (item : DispatchItem F DE EE IE) :
    (dispatch_item c env item).inner.shared.error = c.inner.shared.error
    ∨ ∃ w, (dispatch_item c env item).inner.shared.error
        = some (DispatcherError.ofEither w) := by
  unfold dispatch_item
  by_cases hf : c.fut
  · left; simp [hf]
  · cases hcd : env.callDone with
    | some w =>
      cases w with
      | none => left; simp [hf, writeResultEffect]
      | some err => right; exact ⟨err, by simp [hf, writeResultEffect]⟩
    | none => left; simp [hf]

/-- C9: `from_state` always registers `now + 30` (the default 30-second
keep-alive) during construction, before any configuration method can run,
and records `ka_updated = now`, `ka_timeout = 30`; `keepalive_timeout t`
computes the previous deadline `ka_updated + old ka`, replaces it with
`ka_updated + t` when `t > 0` or unregisters it when `t = 0`, and then
stores `t` as the new timeout. -/
theorem C9_theorem :
    (∀ (now : Nat),
        (from_state now : Config F S DE EE IE).timerLog
            = [TimerEvent.register (now + 30) (now + 30)]
          ∧ (from_state now : Config F S DE EE IE).inner.ka_timeout = 30
          ∧ (from_state now : Config F S DE EE IE).inner.ka_updated = now)
    ∧ (∀ (c : Config F S DE EE IE) (t : Nat), t ≠ 0 →
        keepalive_timeout c t
          = { c with inner.ka_timeout := t,
                     timerLog := c.timerLog
                       ++ [TimerEvent.register (c.inner.ka_updated + t)
                             (c.inner.ka_updated + c.inner.ka_timeout)] })
    ∧ (∀ (c : Config F S DE EE IE),
        keepalive_timeout c 0
          = { c with inner.ka_timeout := 0,
                     timerLog := c.timerLog
                       ++ [TimerEvent.unregister
                             (c.inner.ka_updated + c.inner.ka_timeout)] }) := by
  refine ⟨fun now => ⟨rfl, rfl, rfl⟩, fun c t ht => ?_, fun c => ?_⟩
  · simp [keepalive_timeout, Inner.ka, ht]
  · simp [keepalive_timeout, Inner.ka]

/-- C9 witness: concrete instance of `C9_theorem` at `now = 7`, `t = 5`. -/
theorem C9_witness :
    (from_state 7 : ConfigN).timerLog = [TimerEvent.register (7 + 30) (7 + 30)]
    ∧ keepalive_timeout (from_state 7 : ConfigN) 5
        = { (from_state 7 : ConfigN) with
              inner.ka_timeout := 5,
              timerLog := (from_state 7 : ConfigN).timerLog
                ++ [TimerEvent.register ((from_state 7 : ConfigN).inner.ka_updated + 5)
                      ((from_state 7 : ConfigN).inner.ka_updated
                        + (from_state 7 : ConfigN).inner.ka_timeout)] } :=
  ⟨(C9_theorem.1 7).1, C9_theorem.2.1 (from_state 7) 5 (by decide)⟩

/-- C10: in the `Stop` state the result of the handler readiness poll is
discarded: the outcome of the pass does not depend on `poll_ready` at
all, and neither error slot is touched by the pass, so the final result
depends only on the error slot contents from before. -/
theorem C10_theorem :
    ∀ (c : Config F S DE EE IE) (env : IterEnv F S DE EE IE) (pr : PollReady S),
      c.inner.st = DispatcherState.Stop →
      loop_iter c { env with pollReady := pr } = loop_iter c env
      ∧ (afterIter (loop_iter c env)).inner.error = c.inner.error
      ∧ (afterIter (loop_iter c env)).inner.shared.error = c.inner.shared.error := by
  intro c env pr hst
  refine ⟨?_, ?_, ?_⟩
  · dsimp only [loop_iter]
    rw [hst]
  · dsimp only [loop_iter]
    rw [hst]
    by_cases h0 : c.inner.shared.inflight = 0 <;> simp [h0, afterIter]
  · dsimp only [loop_iter]
    rw [hst]
    by_cases h0 : c.inner.shared.inflight = 0 <;> simp [h0, afterIter]

/-- Concrete configuration in the `Stop` state with a given inflight
count, used by witnesses. -/
def cfgStopN (inflight : Int) : ConfigN :=
  { (from_state 0 : ConfigN) with
      inner.st := DispatcherState.Stop,
      inner.shared.inflight := inflight }

/-- Concrete configuration in the `Shutdown` state with a stashed service
error, used by witnesses. -/
def cfgShutdownN : ConfigN :=
  { (from_state 0 : ConfigN) with
      inner.st := DispatcherState.Shutdown,
      inner.error := some 3 }

/-- Concrete configuration with an occupied inline slot and one spawned
task, used by witnesses. -/
def cfgFutN : ConfigN :=
  { (from_state 0 : ConfigN) with
      fut := true,
      detached := 1,
      inner.shared.inflight := 2 }

/-- C10 witness: `C10_theorem` at a concrete `Stop` configuration, with a
failing readiness poll being discarded. -/
theorem C10_witness :
    loop_iter (cfgStopN 2) { envN with pollReady := PollReady.Err 9 }
        = loop_iter (cfgStopN 2) envN
    ∧ (afterIter (loop_iter (cfgStopN 2) envN)).inner.error = (cfgStopN 2).inner.error
    ∧ (afterIter (loop_iter (cfgStopN 2) envN)).inner.shared.error
        = (cfgStopN 2).inner.shared.error :=
  C10_theorem (cfgStopN 2) envN (PollReady.Err 9) rfl

/-- C6: in the `Shutdown` state every pass invokes `poll_shutdown` with
the flag `err.isSome` (a terminal error is pending); when it is ready the
poll returns `Ready err` (`Err e` when `err = some e`, `Ok(())` when
`none`) and the pass does not continue the state machine; when it is
pending the taken error is put back and the poll suspends. -/
theorem C6_theorem :
    ∀ (c : Config F S DE EE IE) (env : IterEnv F S DE EE IE),
      c.inner.st = DispatcherState.Shutdown →
      (afterIter (loop_iter c env)).shutdownCalls
          = c.shutdownCalls ++ [c.inner.error.isSome]
      ∧ (env.pollShutdownReady = true →
          loop_iter c env
            = Sum.inr ({ c with
                          inner.error := none,
                          shutdownCalls := c.shutdownCalls ++ [c.inner.error.isSome] },
                PollOutcome.Ready c.inner.error))
      ∧ (env.pollShutdownReady = false →
          loop_iter c env
            = Sum.inr ({ c with
                          shutdownCalls := c.shutdownCalls ++ [c.inner.error.isSome] },
                PollOutcome.Pending)) := by
  intro c env hst
  refine ⟨?_, fun hr => ?_, fun hr => ?_⟩
  · dsimp only [loop_iter]
    rw [hst]
    cases hr : env.pollShutdownReady <;> simp [hr, afterIter]
  · dsimp only [loop_iter]
    rw [hst]
    simp [hr]
  · dsimp only [loop_iter]
    rw [hst]
    simp [hr]
    rw [← hst]

/-- C6 witness: `C6_theorem` at a concrete `Shutdown` configuration with
a pending error and a ready shutdown hook. -/
theorem C6_witness :
    (afterIter (loop_iter cfgShutdownN envN)).shutdownCalls
        = cfgShutdownN.shutdownCalls ++ [cfgShutdownN.inner.error.isSome]
    ∧ loop_iter cfgShutdownN envN
        = Sum.inr ({ cfgShutdownN with
            inner.error := none,
            shutdownCalls := cfgShutdownN.shutdownCalls ++ [cfgShutdownN.inner.error.isSome] },
          PollOutcome.Ready cfgShutdownN.inner.error) :=
  ⟨(C6_theorem cfgShutdownN envN rfl).1, (C6_theorem cfgShutdownN envN rfl).2.1 rfl⟩

/-- C7: at the very start of every poll a completed inline handler future
is drained through `handle_result` with `wake = false` (no wake, one
decrement) before the state-machine loop runs; a dispatch while the
inline slot is occupied starts no second inline call but increments
`inflight` and spawns a detached task; a detached completion runs
`handle_result` with `wake = true`, which wakes the dispatch loop. -/
theorem C7_theorem :
    (∀ (c : Config F S DE EE IE) (w : Option (S ⊕ EE))
        (iters : List (IterEnv F S DE EE IE)), c.fut = true →
        poll c (some w) iters
          = poll_loop { handle_result c w false with fut := false } iters)
    ∧ (∀ (c : Config F S DE EE IE) (w : Option (S ⊕ EE)),
        (handle_result c w false).wakes = c.wakes
        ∧ (handle_result c w false).inner.shared.inflight
            = c.inner.shared.inflight - 1)
    ∧ (∀ (c : Config F S DE EE IE) (env : IterEnv F S DE EE IE)
        (item : DispatchItem F DE EE IE), c.fut = true →
        dispatch_item c env item
          = { c with items := c.items ++ [item],
                     detached := c.detached + 1,
                     inner.shared.inflight := c.inner.shared.inflight + 1 })
    ∧ (∀ (c : Config F S DE EE IE) (w : Option (S ⊕ EE)), 0 < c.detached →
        (step c (Event.detachedDone w)).wakes = c.wakes + 1
        ∧ (step c (Event.detachedDone w)).detached = c.detached - 1
        ∧ (step c (Event.detachedDone w)).inner.shared.inflight
            = c.inner.shared.inflight - 1) := by
  refine ⟨fun c w iters hf => ?_, fun c w => ?_, fun c env item hf => ?_,
    fun c w hd => ?_⟩
  · simp [poll, drain_fut, hf]
  · cases w <;> simp [handle_result, writeResultEffect]
  · simp [dispatch_item, hf]
  · cases w <;> simp [step, hd, handle_result, writeResultEffect]

/-- C7 witness: `C7_theorem` at a concrete configuration with an occupied
inline slot and one spawned task. -/
theorem C7_witness :
    poll cfgFutN (some (some (Sum.inr 4))) []
        = poll_loop { handle_result cfgFutN (some (Sum.inr 4)) false with fut := false } []
    ∧ dispatch_item cfgFutN envN (DispatchItem.Item 5)
        = { cfgFutN with
              items := cfgFutN.items ++ [DispatchItem.Item 5],
              detached := cfgFutN.detached + 1,
              inner.shared.inflight := cfgFutN.inner.shared.inflight + 1 }
    ∧ (step cfgFutN (Event.detachedDone none)).wakes = cfgFutN.wakes + 1 :=
  ⟨C7_theorem.1 cfgFutN (some (Sum.inr 4)) [] rfl,
   C7_theorem.2.2.1 cfgFutN envN (DispatchItem.Item 5) rfl,
   (C7_theorem.2.2.2 cfgFutN none (by decide)).1⟩

/-- First oracle pass of the C1 counterexample: decode frame `1`, inline
call stays pending. -/
def C1env1 : IterEnvN := { envN with decodeItem := Except.ok (some 1) }

/-- Second oracle pass of the C1 counterexample: decode frame `2`; the
inline slot is occupied so the handler call is spawned. -/
def C1env2 : IterEnvN := { envN with decodeItem := Except.ok (some 2) }

/-- Suspending oracle pass (service not ready). -/
def C1envPending : IterEnvN := { envN with pollReady := PollReady.Pending }

/-- C1 counterexample, event 1: one poll dispatching frames 1 and 2. -/
def C1ev1 : EventN := Event.poll none [C1env1, C1env2, C1envPending]

/-- C1 counterexample, event 2: a poll whose prologue drains the inline
future, whose `write_result` fails with encoder error `1`. -/
def C1ev2 : EventN := Event.poll (some (some (Sum.inr 1))) [C1envPending]

/-- C1 counterexample, event 3: the spawned task completes and its
`write_result` fails with encoder error `2` while error `1` is pending. -/
def C1ev3 : EventN := Event.detachedDone (some (Sum.inr 2))

/-- C1 counterexample, event 4: the next poll consumes the shared error. -/
def C1ev4 : EventN := Event.poll none [envN]

/-- C1 counterexample: encoder error `1` is recorded first and still
pending (not yet consumed — the dispatcher future has not completed);
the later error-recording event `C1ev3` (a `handle_result` call from a
detached completion) replaces it by encoder error `2`; the error the
dispatch loop ultimately consumes is `EncoderError 2`, not the first
recorded one.  This falsifies the claim that no later error-recording
event replaces a pending error. -/
theorem C1_counterexample :
    (run (from_state 0 : ConfigN) [C1ev1, C1ev2]).inner.shared.error
        = some (DispatcherError.Encoder 1)
    ∧ (run (from_state 0 : ConfigN) [C1ev1, C1ev2]).result = none
    ∧ (run (from_state 0 : ConfigN) [C1ev1, C1ev2, C1ev3]).inner.shared.error
        = some (DispatcherError.Encoder 2)
    ∧ (run (from_state 0 : ConfigN) [C1ev1, C1ev2, C1ev3, C1ev4]).items.getLast?
        = some (DispatchItem.EncoderError 2) := by
  refine ⟨?_, ?_, ?_, ?_⟩ <;> rfl

/-- C1 (amended): the keep-alive check never overwrites a pending shared
error (it re-sets the existing one unchanged), but `handle_result` and
the inline encode path overwrite the shared cell unconditionally, so
among competing error recordings the LAST one before consumption wins,
not the first. -/
theorem C1_theorem :
    (∀ (i : Inner S EE) (b : Bool) (e : DispatcherError S EE),
        i.shared.error = some e → (check_keepalive i b).shared.error = some e)
    ∧ (∀ (c : Config F S DE EE IE) (w : S ⊕ EE) (wake : Bool),
        (handle_result c (some w) wake).inner.shared.error
          = some (DispatcherError.ofEither w))
    ∧ (∀ (c : Config F S DE EE IE) (env : IterEnv F S DE EE IE)
        (item : DispatchItem F DE EE IE) (w : S ⊕ EE),
        c.fut = false → env.callDone = some (some w) →
        (dispatch_item c env item).inner.shared.error
          = some (DispatcherError.ofEither w)) := by
  refine ⟨fun i b e h => ?_, fun c w wake => ?_, fun c env item w hf hcd => ?_⟩
  · cases b <;> simp [check_keepalive, h]
  · cases wake <;> simp [handle_result, writeResultEffect]
  · simp [dispatch_item, hf, hcd, writeResultEffect]

/-- C1 witness: `C1_theorem` at concrete inputs — a pending encoder
error surviving the keep-alive check, and an overwriting `handle_result`. -/
theorem C1_witness :
    (check_keepalive { (from_state 0 : ConfigN).inner with
        shared.error := some (DispatcherError.Encoder 3) } true).shared.error
        = some (DispatcherError.Encoder 3)
    ∧ (handle_result (cfgStopN 1) (some (Sum.inr 8)) true).inner.shared.error
        = some (DispatcherError.ofEither (Sum.inr 8)) :=
  ⟨(@C1_theorem Nat Nat Nat Nat Nat).1 _ true _ rfl,
   C1_theorem.2.1 (cfgStopN 1) (Sum.inr 8) true⟩

/-- First oracle pass of the C4 counterexample: decode frame `1`, the
inline call completes synchronously and its `write_result` fails with
encoder error `7`, recorded in the shared cell. -/
def C4env1 : IterEnvN :=
  { envN with decodeItem := Except.ok (some 1), callDone := some (some (Sum.inr 7)) }

/-- Follow-up oracle pass of the C4 counterexample: the handler accepts
the `EncoderError` item and completes without error. -/
def C4env2 : IterEnvN := { envN with callDone := some none }

/-- C4 counterexample: encoder error `7` is recorded in the shared cell
while still in `Processing` (before entering `Stop`); the same execution
then enters `Stop` and terminates at `Shutdown` with final result
`Ok(())` (`some none`), not the encoder error, because only
`Service`-kind errors reach the dispatcher's final result. -/
theorem C4_counterexample :
    (poll_loop (from_state 0 : ConfigN) [C4env1]).1.inner.shared.error
        = some (DispatcherError.Encoder 7)
    ∧ (poll_loop (from_state 0 : ConfigN) [C4env1]).1.inner.st
        = DispatcherState.Processing
    ∧ (poll_loop (from_state 0 : ConfigN) [C4env1, C4env2]).1.inner.st
        = DispatcherState.Stop
    ∧ (run (from_state 0 : ConfigN)
          [Event.poll none [C4env1, C4env2, C4env2, C4env2]]).result = some none := by
  refine ⟨?_, ?_, ?_, ?_⟩ <;> rfl

/-- C4 (amended): the final result surfaced at `Shutdown` is exactly the
dispatcher's inner error slot, which only `Service`-kind errors reach: a
`Service` error taken from the shared cell (or a failing `poll_ready`) is
stashed there, while `Encoder` and `KeepAlive` errors become
`EncoderError` / `KeepAliveTimeout` dispatch items for the handler and
leave the inner slot unchanged; with an empty inner slot the final result
is `Ok(())`. -/
theorem C4_theorem :
    (∀ (c : Config F S DE EE IE) (env : IterEnv F S DE EE IE),
        c.inner.st = DispatcherState.Shutdown → env.pollShutdownReady = true →
        loop_iter c env
          = Sum.inr ({ c with
                        inner.error := none,
                        shutdownCalls := c.shutdownCalls ++ [c.inner.error.isSome] },
              PollOutcome.Ready c.inner.error))
    ∧ (∀ (c : Config F S DE EE IE) (env : IterEnv F S DE EE IE) (s : S),
        env.pollReady = PollReady.Ok →
        (check_keepalive c.inner env.isKeepalive).shared.error
            = some (DispatcherError.Service s) →
        (poll_service c env).1 = PollService.ServiceError
        ∧ (poll_service c env).2.inner.error = some s)
    ∧ (∀ (c : Config F S DE EE IE) (env : IterEnv F S DE EE IE) (e : EE),
        env.pollReady = PollReady.Ok →
        (check_keepalive c.inner env.isKeepalive).shared.error
            = some (DispatcherError.Encoder e) →
        (poll_service c env).1 = PollService.Item (DispatchItem.EncoderError e)
        ∧ (poll_service c env).2.inner.error = c.inner.error)
    ∧ (∀ (c : Config F S DE EE IE) (env : IterEnv F S DE EE IE),
        env.pollReady = PollReady.Ok →
        (check_keepalive c.inner env.isKeepalive).shared.error
            = some DispatcherError.KeepAlive →
        (poll_service c env).1 = PollService.Item DispatchItem.KeepAliveTimeout
        ∧ (poll_service c env).2.inner.error = c.inner.error)
    ∧ (∀ (c : Config F S DE EE IE) (env : IterEnv F S DE EE IE) (s : S),
        env.pollReady = PollReady.Err s →
        (poll_service c env).2.inner.error = some s) := by
  refine ⟨fun c env hst hr => ?_, fun c env s hok herr => ?_,
    fun c env e hok herr => ?_, fun c env hok herr => ?_, fun c env s he => ?_⟩
  · dsimp only [loop_iter]
    rw [hst]
    simp [hr]
  · rw [poll_service_service_case c env s hok herr]
    exact ⟨rfl, rfl⟩
  · rw [poll_service_encoder_case c env e hok herr]
    exact ⟨rfl, (check_keepalive_fields c.inner env.isKeepalive).2.2.2.1⟩
  · rw [poll_service_keepalive_case c env hok herr]
    exact ⟨rfl, (check_keepalive_fields c.inner env.isKeepalive).2.2.2.1⟩
  · rw [poll_service_ready_err_case c env s he]

/-- C4 witness: `C4_theorem` at concrete inputs — a `Shutdown` poll with
a pending service error, and a pending shared `Service` error being
stashed. -/
theorem C4_witness :
    loop_iter cfgShutdownN envN
        = Sum.inr ({ cfgShutdownN with
            inner.error := none,
            shutdownCalls := cfgShutdownN.shutdownCalls ++ [cfgShutdownN.inner.error.isSome] },
          PollOutcome.Ready cfgShutdownN.inner.error)
    ∧ (poll_service
        { (from_state 0 : ConfigN) with
            inner.shared.error := some (DispatcherError.Service 6) } envN).2.inner.error
        = some 6 :=
  ⟨C4_theorem.1 cfgShutdownN envN rfl rfl,
   (C4_theorem.2.1 { (from_state 0 : ConfigN) with
      inner.shared.error := some (DispatcherError.Service 6) } envN 6 rfl rfl).2⟩

/-- C5: when the handler reports ready, `poll_service` resolves its
outcome in the exact priority order of the source if/else chain: (a) a
pending shared error (the cell contents after the keep-alive check) is
taken first — `KeepAlive` becomes the `KeepAliveTimeout` item, `Encoder`
the `EncoderError` item, `Service` is stashed in the dispatcher error
slot with the `ServiceError` signal, in all three cases with the state
set to `Stop` and keep-alive unregistered, regardless of any stop
request; (b) otherwise an external stop unregisters keep-alive, sets
`Stop` and yields the `IoError` item when one is recorded, else the
`ServiceError` signal; (c) otherwise the outcome is `Ready`. -/
theorem C5_theorem :
    ∀ (c : Config F S DE EE IE) (env : IterEnv F S DE EE IE),
      env.pollReady = PollReady.Ok →
      ((check_keepalive c.inner env.isKeepalive).shared.error
            = some DispatcherError.KeepAlive →
          poll_service c env
            = (PollService.Item DispatchItem.KeepAliveTimeout,
                { c with
                    inner := { check_keepalive c.inner env.isKeepalive with
                                shared.error := none,
                                st := DispatcherState.Stop },
                    timerLog := unregister_keepalive c.inner c.timerLog }))
      ∧ (∀ e, (check_keepalive c.inner env.isKeepalive).shared.error
            = some (DispatcherError.Encoder e) →
          poll_service c env
            = (PollService.Item (DispatchItem.EncoderError e),
                { c with
                    inner := { check_keepalive c.inner env.isKeepalive with
                                shared.error := none,
                                st := DispatcherState.Stop },
                    timerLog := unregister_keepalive c.inner c.timerLog }))
      ∧ (∀ s, (check_keepalive c.inner env.isKeepalive).shared.error
            = some (DispatcherError.Service s) →
          poll_service c env
            = (PollService.ServiceError,
                { c with
                    inner := { check_keepalive c.inner env.isKeepalive with
                                shared.error := none,
                                st := DispatcherState.Stop,
                                error := some s },
                    timerLog := unregister_keepalive c.inner c.timerLog }))
      ∧ (∀ ioe, (check_keepalive c.inner env.isKeepalive).shared.error = none →
          env.isDspStopped = true → env.takeIoError = some ioe →
          poll_service c env
            = (PollService.Item (DispatchItem.IoError ioe),
                { c with
                    inner := { check_keepalive c.inner env.isKeepalive with
                                st := DispatcherState.Stop },
                    timerLog := unregister_keepalive c.inner c.timerLog }))
      ∧ ((check_keepalive c.inner env.isKeepalive).shared.error = none →
          env.isDspStopped = true → env.takeIoError = none →
          poll_service c env
            = (PollService.ServiceError,
                { c with
                    inner := { check_keepalive c.inner env.isKeepalive with
                                st := DispatcherState.Stop },
                    timerLog := unregister_keepalive c.inner c.timerLog }))
      ∧ ((check_keepalive c.inner env.isKeepalive).shared.error = none →
          env.isDspStopped = false →
          poll_service c env
            = (PollService.Ready,
                { c with inner := check_keepalive c.inner env.isKeepalive })) := by
  intro c env hok
  exact ⟨fun herr => poll_service_keepalive_case c env hok herr,
    fun e herr => poll_service_encoder_case c env e hok herr,
    fun s herr => poll_service_service_case c env s hok herr,
    fun ioe herr hstop hio => poll_service_stop_io_case c env ioe hok herr hstop hio,
    fun herr hstop hio => poll_service_stop_none_case c env hok herr hstop hio,
    fun herr hstop => poll_service_ready_case c env hok herr hstop⟩

/-- Concrete configuration with a pending `Encoder` error, used by the
C5 witness. -/
def cfgEncErrN : ConfigN :=
  { (from_state 0 : ConfigN) with
      inner.shared.error := some (DispatcherError.Encoder 9) }

/-- C5 witness: `C5_theorem` at a concrete configuration where an
`Encoder` error is pending while a stop is also requested — the pending
error wins. -/
theorem C5_witness :
    poll_service cfgEncErrN { envN with isDspStopped := true }
      = (PollService.Item (DispatchItem.EncoderError 9),
          { cfgEncErrN with
              inner := { check_keepalive cfgEncErrN.inner
                          ({ envN with isDspStopped := true } : IterEnvN).isKeepalive with
                          shared.error := none,
                          st := DispatcherState.Stop },
              timerLog := unregister_keepalive cfgEncErrN.inner cfgEncErrN.timerLog }) :=
  (C5_theorem cfgEncErrN { envN with isDspStopped := true } rfl).2.1 9 rfl

/-- Accounting invariant tying the shared `inflight` counter to the
pending handler calls: one for an occupied inline slot, one per spawned
task still running. -/
def InflightInv (c : Config F S DE EE IE) : Prop :=
  c.inner.shared.inflight = (if c.fut then 1 else 0) + (c.detached : Int)

lemma dispatch_item_inflight (c : Config F S DE EE IE) (env : IterEnv F S DE EE IE)
    (item : DispatchItem F DE EE IE) (h : InflightInv c) :
    InflightInv (dispatch_item c env item) := by
  unfold InflightInv at h ⊢
  unfold dispatch_item
  by_cases hf : c.fut
  · simp [hf] at h ⊢
    omega
  · cases hcd : env.callDone with
    | some w => cases w <;> simp [hf, writeResultEffect, h]
    | none =>
      simp [hf] at h ⊢
      omega

lemma loop_iter_inflight (c : Config F S DE EE IE) (env : IterEnv F S DE EE IE)
    (h : InflightInv c) : InflightInv (afterIter (loop_iter c env)) := by
  cases hst : c.inner.st with
  | Stop =>
    dsimp only [loop_iter]
    rw [hst]
    by_cases h0 : c.inner.shared.inflight = 0 <;>
      simp only [h0, if_true, if_false, afterIter, InflightInv] at h ⊢ <;>
      simpa using h
  | Shutdown =>
    dsimp only [loop_iter]
    rw [hst]
    cases hr : env.pollShutdownReady <;>
      simp only [hr, afterIter, InflightInv, Bool.false_eq_true, if_true, if_false] at h ⊢ <;>
      simpa using h
  | Processing =>
    dsimp only [loop_iter]
    rw [hst]
    cases hpr : env.pollReady with
    | Pending =>
      rw [poll_service_pending_case c env hpr]
      simpa [afterIter] using h
    | Err s =>
      rw [poll_service_ready_err_case c env s hpr]
      simpa [afterIter, InflightInv] using h
    | Ok =>
      obtain ⟨f1, f2, f3, f4, f5⟩ := check_keepalive_fields c.inner env.isKeepalive
      cases herr : (check_keepalive c.inner env.isKeepalive).shared.error with
      | some err =>
        cases err with
        | KeepAlive =>
          rw [poll_service_keepalive_case c env hpr herr]
          simp only [afterIter]
          apply dispatch_item_inflight
          unfold InflightInv at h ⊢
          simpa [f5] using h
        | Encoder e =>
          rw [poll_service_encoder_case c env e hpr herr]
          simp only [afterIter]
          apply dispatch_item_inflight
          unfold InflightInv at h ⊢
          simpa [f5] using h
        | Service sv =>
          rw [poll_service_service_case c env sv hpr herr]
          unfold InflightInv at h ⊢
          simpa [afterIter, f5] using h
      | none =>
        cases hstop : env.isDspStopped with
        | true =>
          cases hio : env.takeIoError with
          | some ioe =>
            rw [poll_service_stop_io_case c env ioe hpr herr hstop hio]
            simp only [afterIter]
            apply dispatch_item_inflight
            unfold InflightInv at h ⊢
            simpa [f5] using h
          | none =>
            rw [poll_service_stop_none_case c env hpr herr hstop hio]
            unfold InflightInv at h ⊢
            simpa [afterIter, f5] using h
        | false =>
          rw [poll_service_ready_case c env hpr herr hstop]
          cases hrr : env.isReadReady with
          | false =>
            simp only [hrr, afterIter, Bool.false_eq_true, if_false]
            unfold InflightInv at h ⊢
            simpa [f5] using h
          | true =>
            cases hdec : env.decodeItem with
            | ok o =>
              cases o with
              | some el =>
                obtain ⟨u1, u2, u3, u4⟩ := update_keepalive_core
                  (check_keepalive c.inner env.isKeepalive) c.timerLog env.now
                simp only [hrr, hdec, afterIter, if_true]
                apply dispatch_item_inflight
                unfold InflightInv at h ⊢
                simpa [u1, f5] using h
              | none =>
                simp only [hrr, hdec, afterIter, if_true]
                unfold InflightInv at h ⊢
                simpa [f5] using h
            | error e =>
              simp only [hrr, hdec, afterIter, if_true]
              apply dispatch_item_inflight
              unfold InflightInv at h ⊢
              simpa [f5] using h

lemma drain_fut_inflight (c : Config F S DE EE IE) (w : Option (Option (S ⊕ EE)))
    (h : InflightInv c) : InflightInv (drain_fut c w) := by
  unfold InflightInv at h ⊢
  unfold drain_fut
  by_cases hf : c.fut
  · cases w with
    | none => simpa [hf] using h
    | some w0 =>
      cases w0 <;> simp [hf, handle_result, writeResultEffect] <;>
        simp [hf] at h <;> omega
  · simpa [hf] using h

lemma step_inflight (c : Config F S DE EE IE) (e : Event F S DE EE IE)
    (h : InflightInv c) : InflightInv (step c e) := by
  cases e with
  | poll futDone iters =>
    refine step_poll_preserve (fun c2 r h2 => ?_) (fun c2 w h2 => drain_fut_inflight c2 w h2)
      (fun c2 env _ h2 => loop_iter_inflight c2 env h2) c futDone iters
      (fun _ _ => trivial) h
    unfold InflightInv at h2 ⊢
    simpa using h2
  | detachedDone w =>
    unfold step
    by_cases hd : c.detached > 0
    · unfold InflightInv at h ⊢
      cases w <;> simp [hd, handle_result, writeResultEffect] <;> omega
    · simpa [hd] using h

/-- C3: the shared inflight counter never goes below 0 along any
execution from construction (it always equals the number of pending
handler calls), and the `Stop` arm transitions to `Shutdown` — calling
`shutdown_io` — exactly in a pass where `inflight = 0`; otherwise it
stays in `Stop`, registers the waker and suspends. -/
theorem C3_theorem :
    (∀ (now : Nat) (events : List (Event F S DE EE IE)),
        0 ≤ (run (from_state now) events).inner.shared.inflight)
    ∧ (∀ (c : Config F S DE EE IE) (env : IterEnv F S DE EE IE),
        c.inner.st = DispatcherState.Stop → c.inner.shared.inflight ≠ 0 →
        loop_iter c env = Sum.inr (c, PollOutcome.Pending))
    ∧ (∀ (c : Config F S DE EE IE) (env : IterEnv F S DE EE IE),
        c.inner.st = DispatcherState.Stop → c.inner.shared.inflight = 0 →
        loop_iter c env
          = Sum.inl { c with
                        inner.st := DispatcherState.Shutdown,
                        ioShutdown := true }) := by
  refine ⟨fun now events => ?_, fun c env hst h0 => ?_, fun c env hst h0 => ?_⟩
  · have h : InflightInv (run (from_state now : Config F S DE EE IE) events) :=
      run_preserve (fun c2 e _ h2 => step_inflight c2 e h2) events (fun _ _ => trivial) _
        (by simp [InflightInv, from_state])
    unfold InflightInv at h
    rw [h]
    by_cases hf : (run (from_state now : Config F S DE EE IE) events).fut <;>
      · simp [hf]
        try omega
  · dsimp only [loop_iter]
    rw [hst]
    simp [h0]
  · dsimp only [loop_iter]
    rw [hst]
    simp [h0]

/-- C3 witness: `C3_theorem` at a concrete execution and at concrete
`Stop` configurations with nonzero and zero inflight. -/
theorem C3_witness :
    0 ≤ (run (from_state 4 : ConfigN) [Event.poll none [envN]]).inner.shared.inflight
    ∧ loop_iter (cfgStopN 2) envN = Sum.inr (cfgStopN 2, PollOutcome.Pending)
    ∧ loop_iter (cfgStopN 0) envN
        = Sum.inl { cfgStopN 0 with
                      inner.st := DispatcherState.Shutdown,
                      ioShutdown := true } :=
  ⟨C3_theorem.1 4 [Event.poll none [envN]],
   C3_theorem.2.1 (cfgStopN 2) envN rfl (by decide),
   C3_theorem.2.2 (cfgStopN 0) envN rfl rfl⟩

lemma handle_result_st (c : Config F S DE EE IE) (w : Option (S ⊕ EE)) (wake : Bool) :
    (handle_result c w wake).inner.st = c.inner.st := by
  cases wake <;> cases w <;> simp [handle_result, writeResultEffect]

lemma drain_fut_st (c : Config F S DE EE IE) (w : Option (Option (S ⊕ EE))) :
    (drain_fut c w).inner.st = c.inner.st := by
  unfold drain_fut
  by_cases hf : c.fut
  · cases w with
    | none => simp [hf]
    | some w0 => simp [hf, handle_result_st]
  · simp [hf]

lemma loop_iter_st_mono (c : Config F S DE EE IE) (env : IterEnv F S DE EE IE) :
    DispatcherState.ord c.inner.st
      ≤ DispatcherState.ord (afterIter (loop_iter c env)).inner.st := by
  cases hst : c.inner.st with
  | Processing =>
    simp [DispatcherState.ord]
  | Stop =>
    dsimp only [loop_iter]
    rw [hst]
    by_cases h0 : c.inner.shared.inflight = 0 <;>
      simp [h0, afterIter, DispatcherState.ord, hst]
  | Shutdown =>
    dsimp only [loop_iter]
    rw [hst]
    cases hr : env.pollShutdownReady <;>
      simp [hr, afterIter, DispatcherState.ord, hst]

lemma poll_loop_st_mono (iters : List (IterEnv F S DE EE IE)) :
    ∀ c : Config F S DE EE IE,
      DispatcherState.ord c.inner.st
        ≤ DispatcherState.ord (poll_loop c iters).1.inner.st := by
  induction iters with
  | nil => intro c; exact le_refl _
  | cons env rest ih =>
    intro c
    have h1 := loop_iter_st_mono c env
    cases hiter : loop_iter c env with
    | inl c2 =>
      rw [hiter] at h1
      simp only [afterIter] at h1
      have h2 := ih c2
      simp only [poll_loop, hiter]
      exact le_trans h1 h2
    | inr p =>
      obtain ⟨c2, out⟩ := p
      rw [hiter] at h1
      simp only [afterIter] at h1
      simpa [poll_loop, hiter] using h1

lemma step_st_mono (c : Config F S DE EE IE) (e : Event F S DE EE IE) :
    DispatcherState.ord c.inner.st ≤ DispatcherState.ord (step c e).inner.st := by
  cases e with
  | poll futDone iters =>
    by_cases hr : c.result.isSome
    · simp [step, hr]
    · have h1 : DispatcherState.ord c.inner.st
          ≤ DispatcherState.ord (poll_loop (drain_fut c futDone) iters).1.inner.st := by
        have h2 := poll_loop_st_mono iters (drain_fut c futDone)
        rwa [drain_fut_st] at h2
      rcases hp : poll_loop (drain_fut c futDone) iters with ⟨c2, o⟩
      rw [hp] at h1
      cases o with
      | none => simpa [step, poll, hr, hp] using h1
      | some out =>
        cases out with
        | Pending => simpa [step, poll, hr, hp] using h1
        | Ready r => simpa [step, poll, hr, hp] using h1
  | detachedDone w =>
    by_cases hd : c.detached > 0
    · simp [step, hd, handle_result_st]
    · simp [step, hd]

lemma run_st_mono (events : List (Event F S DE EE IE)) :
    ∀ c : Config F S DE EE IE,
      DispatcherState.ord c.inner.st
        ≤ DispatcherState.ord (run c events).inner.st := by
  induction events with
  | nil => intro c; exact le_refl _
  | cons e rest ih =>
    intro c
    exact le_trans (step_st_mono c e) (ih (step c e))

/-- C8: the dispatcher state only moves forward along
Processing → Stop → Shutdown on every execution: its ordinal is monotone
under arbitrary events, a configuration in `Stop` never returns to
`Processing`, and a configuration in `Shutdown` stays in `Shutdown`. -/
theorem C8_theorem :
    ∀ (c : Config F S DE EE IE) (events : List (Event F S DE EE IE)),
      DispatcherState.ord c.inner.st
          ≤ DispatcherState.ord (run c events).inner.st
      ∧ (c.inner.st = DispatcherState.Stop →
          (run c events).inner.st ≠ DispatcherState.Processing)
      ∧ (c.inner.st = DispatcherState.Shutdown →
          (run c events).inner.st = DispatcherState.Shutdown) := by
  intro c events
  have h := run_st_mono events c
  refine ⟨h, fun hst => ?_, fun hst => ?_⟩
  · rw [hst] at h
    intro hP
    rw [hP] at h
    simp [DispatcherState.ord] at h
  · rw [hst] at h
    cases hr : (run c events).inner.st with
    | Processing => rw [hr] at h; simp [DispatcherState.ord] at h
    | Stop => rw [hr] at h; simp [DispatcherState.ord] at h
    | Shutdown => rfl

/-- C8 witness: `C8_theorem` on a concrete execution starting in `Stop`. -/
theorem C8_witness :
    DispatcherState.ord (cfgStopN 1).inner.st
        ≤ DispatcherState.ord (run (cfgStopN 1) [Event.poll none [envN]]).inner.st
    ∧ (run (cfgStopN 1) [Event.poll none [envN]]).inner.st ≠ DispatcherState.Processing :=
  ⟨(C8_theorem (cfgStopN 1) [Event.poll none [envN]]).1,
   (C8_theorem (cfgStopN 1) [Event.poll none [envN]]).2.1 rfl⟩

lemma unregister_keepalive_disabled (i : Inner S EE) (log : List TimerEvent)
    (h : i.ka_timeout = 0) : unregister_keepalive i log = log := by
  simp [unregister_keepalive, Inner.ka_enabled, h]

lemma update_keepalive_disabled (i : Inner S EE) (log : List TimerEvent) (now : Nat)
    (h : i.ka_timeout = 0) : update_keepalive i log now = (i, log) := by
  simp [update_keepalive, Inner.ka_enabled, h]

/-- Keep-alive-disabled invariant: the timeout is 0, the shared cell does
not hold a `KeepAlive` error, and no `KeepAliveTimeout` item has been
dispatched. -/
def KaDisabled (c : Config F S DE EE IE) : Prop :=
  c.inner.ka_timeout = 0
  ∧ c.inner.shared.error ≠ some DispatcherError.KeepAlive
  ∧ DispatchItem.KeepAliveTimeout ∉ c.items

/-- Event condition: no pass of the event reports the connection
keep-alive flag (the timer facility only sets it when a registered
deadline elapses). -/
def kaFlagFree : Event F S DE EE IE → Bool
  | Event.poll _ iters => iters.all (fun env => ! env.isKeepalive)
  | Event.detachedDone _ => true

lemma dispatch_item_ka_disabled (c : Config F S DE EE IE) (env : IterEnv F S DE EE IE)
    (item : DispatchItem F DE EE IE)
    (hka : c.inner.ka_timeout = 0)
    (herr : c.inner.shared.error ≠ some DispatcherError.KeepAlive)
    (hitems : DispatchItem.KeepAliveTimeout ∉ c.items)
    (hitem : item ≠ DispatchItem.KeepAliveTimeout) :
    KaDisabled (dispatch_item c env item)
    ∧ (dispatch_item c env item).timerLog = c.timerLog := by
  obtain ⟨g1, g2, g3, g4, g5, g6, g7, g8, g9⟩ := dispatch_item_fields c env item
  refine ⟨⟨?_, ?_, ?_⟩, g5⟩
  · rw [g2, hka]
  · rcases dispatch_item_error c env item with hE | ⟨w, hW⟩
    · rw [hE]; exact herr
    · rw [hW]
      intro hc
      injection hc with hc2
      exact ofEither_ne_keepAlive w hc2
  · rw [g6]
    intro hmem
    rcases List.mem_append.mp hmem with hL | hR
    · exact hitems hL
    · simp only [List.mem_singleton] at hR
      exact hitem hR.symm

lemma handle_result_ka_fields (c : Config F S DE EE IE) (w : Option (S ⊕ EE)) (wake : Bool) :
    (handle_result c w wake).inner.ka_timeout = c.inner.ka_timeout ∧
    (handle_result c w wake).items = c.items ∧
    (handle_result c w wake).timerLog = c.timerLog ∧
    ((handle_result c w wake).inner.shared.error = c.inner.shared.error
      ∨ ∃ w0, (handle_result c w wake).inner.shared.error
          = some (DispatcherError.ofEither w0)) := by
  refine ⟨?_, ?_, ?_, ?_⟩
  · cases wake <;> cases w <;> simp [handle_result, writeResultEffect]
  · cases wake <;> cases w <;> simp [handle_result, writeResultEffect]
  · cases wake <;> cases w <;> simp [handle_result, writeResultEffect]
  · cases w with
    | none => left; cases wake <;> simp [handle_result, writeResultEffect]
    | some w0 =>
      right
      exact ⟨w0, by cases wake <;> simp [handle_result, writeResultEffect]⟩

lemma loop_iter_ka_disabled (c : Config F S DE EE IE) (env : IterEnv F S DE EE IE)
    (hflag : env.isKeepalive = false) (h : KaDisabled c) :
    KaDisabled (afterIter (loop_iter c env))
    ∧ (afterIter (loop_iter c env)).timerLog = c.timerLog := by
  obtain ⟨hka, herr0, hitems⟩ := h
  have hchk : check_keepalive c.inner env.isKeepalive = c.inner := by
    rw [hflag]
    exact check_keepalive_false c.inner
  have hunreg : unregister_keepalive c.inner c.timerLog = c.timerLog :=
    unregister_keepalive_disabled c.inner c.timerLog hka
  cases hst : c.inner.st with
  | Stop =>
    dsimp only [loop_iter]
    rw [hst]
    by_cases h0 : c.inner.shared.inflight = 0
    · rw [if_pos h0]
      dsimp only [afterIter]
      exact ⟨⟨hka, herr0, hitems⟩, rfl⟩
    · rw [if_neg h0]
      dsimp only [afterIter]
      exact ⟨⟨hka, herr0, hitems⟩, rfl⟩
  | Shutdown =>
    dsimp only [loop_iter]
    rw [hst]
    cases hr : env.pollShutdownReady <;> simp only [hr] <;> dsimp only [afterIter] <;>
      exact ⟨⟨hka, herr0, hitems⟩, rfl⟩
  | Processing =>
    dsimp only [loop_iter]
    rw [hst]
    cases hpr : env.pollReady with
    | Pending =>
      rw [poll_service_pending_case c env hpr]
      dsimp only [afterIter]
      exact ⟨⟨hka, herr0, hitems⟩, rfl⟩
    | Err sv =>
      rw [poll_service_ready_err_case c env sv hpr]
      dsimp only [afterIter]
      exact ⟨⟨hka, herr0, hitems⟩, hunreg⟩
    | Ok =>
      cases herr2 : c.inner.shared.error with
      | some err =>
        have herrC : (check_keepalive c.inner env.isKeepalive).shared.error = some err := by
          rw [hchk]
          exact herr2
        cases err with
        | KeepAlive => exact absurd herr2 herr0
        | Encoder e =>
          rw [poll_service_encoder_case c env e hpr herrC, hchk, hunreg]
          dsimp only [afterIter]
          exact dispatch_item_ka_disabled _ env _ hka (by simp) hitems (by simp)
        | Service sv =>
          rw [poll_service_service_case c env sv hpr herrC, hchk, hunreg]
          dsimp only [afterIter]
          exact ⟨⟨hka, by simp, hitems⟩, rfl⟩
      | none =>
        have herrC : (check_keepalive c.inner env.isKeepalive).shared.error = none := by
          rw [hchk]
          exact herr2
        cases hstop : env.isDspStopped with
        | true =>
          cases hio : env.takeIoError with
          | some ioe =>
            rw [poll_service_stop_io_case c env ioe hpr herrC hstop hio, hchk, hunreg]
            dsimp only [afterIter]
            exact dispatch_item_ka_disabled _ env _ hka
              (by rw [show ({ c.inner with st := DispatcherState.Stop } : Inner S EE).shared.error
                    = c.inner.shared.error from rfl, herr2]; simp)
              hitems (by simp)
          | none =>
            rw [poll_service_stop_none_case c env hpr herrC hstop hio, hchk, hunreg]
            dsimp only [afterIter]
            refine ⟨⟨hka, ?_, hitems⟩, rfl⟩
            rw [show ({ c.inner with st := DispatcherState.Stop } : Inner S EE).shared.error
                  = c.inner.shared.error from rfl, herr2]
            simp
        | false =>
          rw [poll_service_ready_case c env hpr herrC hstop, hchk]
          cases hrr : env.isReadReady with
          | false =>
            simp only [hrr]
            dsimp only [afterIter]
            exact ⟨⟨hka, herr0, hitems⟩, rfl⟩
          | true =>
            simp only [hrr]
            cases hdec : env.decodeItem with
            | ok o =>
              cases o with
              | some el =>
                simp only [hdec]
                rw [show ({ c with inner := c.inner } : Config F S DE EE IE) = c from rfl]
                rw [update_keepalive_disabled c.inner c.timerLog env.now hka]
                dsimp only [afterIter]
                rw [show ({ c with inner := c.inner, timerLog := c.timerLog }
                      : Config F S DE EE IE) = c from rfl]
                exact dispatch_item_ka_disabled c env _ hka herr0 hitems (by simp)
              | none =>
                simp only [hdec]
                dsimp only [afterIter]
                exact ⟨⟨hka, herr0, hitems⟩, rfl⟩
            | error e =>
              simp only [hdec]
              rw [show ({ c with inner := c.inner } : Config F S DE EE IE) = c from rfl]
              rw [unregister_keepalive_disabled ({ c.inner with st := DispatcherState.Stop })
                    c.timerLog hka]
              dsimp only [afterIter]
              exact dispatch_item_ka_disabled _ env _ hka
                (by rw [show ({ c.inner with st := DispatcherState.Stop } : Inner S EE).shared.error
                      = c.inner.shared.error from rfl]; exact herr0)
                hitems (by simp)

lemma drain_fut_ka_disabled (c : Config F S DE EE IE) (w : Option (Option (S ⊕ EE)))
    (h : KaDisabled c) :
    KaDisabled (drain_fut c w) ∧ (drain_fut c w).timerLog = c.timerLog := by
  obtain ⟨hka, herr0, hitems⟩ := h
  unfold drain_fut
  by_cases hf : c.fut
  · cases w with
    | none =>
      rw [if_pos hf]
      exact ⟨⟨hka, herr0, hitems⟩, rfl⟩
    | some w0 =>
      rw [if_pos hf]
      obtain ⟨a1, a2, a3, a4⟩ := handle_result_ka_fields c w0 false
      refine ⟨⟨?_, ?_, ?_⟩, ?_⟩
      · show (handle_result c w0 false).inner.ka_timeout = 0
        rw [a1, hka]
      · show (handle_result c w0 false).inner.shared.error ≠ some DispatcherError.KeepAlive
        rcases a4 with hE | ⟨wx, hW⟩
        · rw [hE]; exact herr0
        · rw [hW]
          intro hc
          injection hc with hc2
          exact ofEither_ne_keepAlive wx hc2
      · show DispatchItem.KeepAliveTimeout ∉ (handle_result c w0 false).items
        rw [a2]; exact hitems
      · show (handle_result c w0 false).timerLog = c.timerLog
        exact a3
  · rw [if_neg hf]
    exact ⟨⟨hka, herr0, hitems⟩, rfl⟩

lemma step_ka_disabled (c : Config F S DE EE IE) (e : Event F S DE EE IE)
    (hflag : kaFlagFree e = true) (h : KaDisabled c) :
    KaDisabled (step c e) ∧ (step c e).timerLog = c.timerLog := by
  cases e with
  | poll futDone iters =>
    have hq : ∀ env ∈ iters, env.isKeepalive = false := by
      intro env henv
      have := List.all_eq_true.mp hflag env henv
      simpa using this
    exact @step_poll_preserve F S DE EE IE
      (fun x => KaDisabled x ∧ x.timerLog = c.timerLog)
      (fun env => env.isKeepalive = false)
      (fun c2 r h2 => ⟨h2.1, h2.2⟩)
      (fun c2 w h2 =>
        ⟨(drain_fut_ka_disabled c2 w h2.1).1,
         ((drain_fut_ka_disabled c2 w h2.1).2).trans h2.2⟩)
      (fun c2 env he h2 =>
        ⟨(loop_iter_ka_disabled c2 env he h2.1).1,
         ((loop_iter_ka_disabled c2 env he h2.1).2).trans h2.2⟩)
      c futDone iters hq ⟨h, rfl⟩
  | detachedDone w =>
    obtain ⟨hka, herr0, hitems⟩ := h
    dsimp only [step]
    by_cases hd : c.detached > 0
    · rw [if_pos hd]
      obtain ⟨a1, a2, a3, a4⟩ := handle_result_ka_fields c w true
      refine ⟨⟨?_, ?_, ?_⟩, ?_⟩
      · show (handle_result c w true).inner.ka_timeout = 0
        rw [a1, hka]
      · show (handle_result c w true).inner.shared.error ≠ some DispatcherError.KeepAlive
        rcases a4 with hE | ⟨wx, hW⟩
        · rw [hE]; exact herr0
        · rw [hW]
          intro hc
          injection hc with hc2
          exact ofEither_ne_keepAlive wx hc2
      · show DispatchItem.KeepAliveTimeout ∉ (handle_result c w true).items
        rw [a2]; exact hitems
      · show (handle_result c w true).timerLog = c.timerLog
        exact a3
    · rw [if_neg hd]
      exact ⟨⟨hka, herr0, hitems⟩, rfl⟩

/-- C2 (amended): once the keep-alive timeout is 0 and no `KeepAlive`
error or `KeepAliveTimeout` item is present, every further execution
whose passes never observe the connection keep-alive flag leaves the
timer log untouched (no deadline is registered or unregistered by
polling), never dispatches a `KeepAliveTimeout` item, and keeps the
timeout at 0.  (The construction itself does register the default
30-second deadline first — see the counterexample — and
`keepalive_timeout 0` then unregisters it.) -/
theorem C2_theorem :
    ∀ (c : Config F S DE EE IE) (events : List (Event F S DE EE IE)),
      c.inner.ka_timeout = 0 →
      c.inner.shared.error ≠ some DispatcherError.KeepAlive →
      DispatchItem.KeepAliveTimeout ∉ c.items →
      (∀ e ∈ events, kaFlagFree e = true) →
      (run c events).timerLog = c.timerLog
      ∧ DispatchItem.KeepAliveTimeout ∉ (run c events).items
      ∧ (run c events).inner.ka_timeout = 0 := by
  intro c events h1 h2 h3 hq
  have h := @run_preserve F S DE EE IE
    (fun x => KaDisabled x ∧ x.timerLog = c.timerLog)
    (fun e => kaFlagFree e = true)
    (fun c2 e he hP =>
      ⟨(step_ka_disabled c2 e he hP.1).1,
       ((step_ka_disabled c2 e he hP.1).2).trans hP.2⟩)
    events hq c ⟨⟨h1, h2, h3⟩, rfl⟩
  exact ⟨h.2, h.1.2.2, h.1.1⟩

/-- C2 counterexample: even when the dispatcher is configured with
keep-alive timeout 0, a keep-alive deadline was registered with the
timer facility during its lifetime — `from_state` unconditionally
registers the default `now + 30` deadline, which `keepalive_timeout 0`
then unregisters. -/
theorem C2_counterexample :
    (keepalive_timeout (from_state 5 : ConfigN) 0).timerLog
        = [TimerEvent.register 35 35, TimerEvent.unregister 35]
    ∧ TimerEvent.register 35 35
        ∈ (keepalive_timeout (from_state 5 : ConfigN) 0).timerLog := by
  exact ⟨rfl, by decide⟩

/-- C2 witness: `C2_theorem` on the configured-to-0 dispatcher over a
concrete execution with a poll and a detached completion. -/
theorem C2_witness :
    (run (keepalive_timeout (from_state 0 : ConfigN) 0)
        [Event.poll none [envN], Event.detachedDone none]).timerLog
      = (keepalive_timeout (from_state 0 : ConfigN) 0).timerLog
    ∧ DispatchItem.KeepAliveTimeout
        ∉ (run (keepalive_timeout (from_state 0 : ConfigN) 0)
            [Event.poll none [envN], Event.detachedDone none]).items :=
  ⟨(C2_theorem (keepalive_timeout (from_state 0 : ConfigN) 0)
      [Event.poll none [envN], Event.detachedDone none]
      rfl (by decide) (by decide) (by decide)).1,
   (C2_theorem (keepalive_timeout (from_state 0 : ConfigN) 0)
      [Event.poll none [envN], Event.detachedDone none]
      rfl (by decide) (by decide) (by decide)).2.1⟩

end NtexFramed

